import Mathlib

/-!
Shallow embedding of the ARM64 encoder IPC client of ALVR
(`src/alvr/server_openvr/cpp/platform/win32/Arm64EncoderIpc.{h,cpp}`,
namespace `Arm64EncoderIpc`, class `EncoderIpcClient`), together with proofs
about its operations.

Modelling conventions:
* machine integers (`uint32_t`, `uint64_t`, `uint8_t`) are `Nat`; reductions
  modulo `2^w` are written explicitly where the byte layout matters;
* the shared-memory region is a `SharedMemoryLayout` value whose two byte
  buffers are total functions `Nat → Nat` (a buffer of capacity `n` is the
  restriction of such a function to indices `< n`);
* Win32 handles are `Bool` (`true` = non-null handle held);
* OS interactions (`OpenFileMappingW`, `CreateProcessW`, `MapViewOfFile`,
  `OpenEventW`, `SetEvent`, `WaitForSingleObject`) are oracles: their success
  or failure is an explicit parameter of the operation, and the operation's
  observable effects (what it wrote, what it launched, how long it waited)
  are returned in result records.
-/

namespace Arm64EncoderIpc

/-- Constant `FRAME_BUFFER_SIZE = 4096 * 2160 * 4` (4K RGBA) from `Arm64EncoderIpc.h`. -/
def FRAME_BUFFER_SIZE : Nat := 4096 * 2160 * 4

/-- Constant `PACKET_BUFFER_SIZE = 4 * 1024 * 1024` (4MB) from `Arm64EncoderIpc.h`. -/
def PACKET_BUFFER_SIZE : Nat := 4 * 1024 * 1024

/-- The `enum class PixelFormat : uint8_t` from `Arm64EncoderIpc.h`. -/
inductive PixelFormat where
  | RGBA
  | NV12
  | P010
deriving Repr, DecidableEq

/-- As `static_cast<uint8_t>(format)`: the underlying byte of a `PixelFormat`
(`RGBA = 0`, `NV12 = 1`, `P010 = 2`). -/
def PixelFormat.toByte : PixelFormat → Nat
  | .RGBA => 0
  | .NV12 => 1
  | .P010 => 2

/-- The `struct FrameHeader` under `#pragma pack(push, 1)` from
`Arm64EncoderIpc.h`: `width:u32, height:u32, timestamp_ns:u64, insert_idr:u8,
pixel_format:u8, row_pitch:u32, data_size:u32, shutdown:u8, _padding[3]`. -/
structure FrameHeader where
  width : Nat
  height : Nat
  timestamp_ns : Nat
  insert_idr : Nat
  pixel_format : Nat
  row_pitch : Nat
  data_size : Nat
  shutdown : Nat
deriving Repr, DecidableEq

/-- The `struct PacketHeader` under `#pragma pack(push, 1)` from
`Arm64EncoderIpc.h`: `size:u32, timestamp_ns:u64, is_idr:u8, _padding[3]`. -/
structure PacketHeader where
  size : Nat
  timestamp_ns : Nat
  is_idr : Nat
deriving Repr, DecidableEq

/-- The `struct SharedMemoryLayout`: the two headers followed by the frame and
packet buffers.  Buffers are modelled as total functions on byte indices. -/
structure SharedMemoryLayout where
  frame_header : FrameHeader
  packet_header : PacketHeader
  frame_buffer : Nat → Nat
  packet_buffer : Nat → Nat

/-- The private state of `class EncoderIpcClient`.  Each `HANDLE` member is a
`Bool` recording whether the handle is non-null; `m_sharedPtr` records whether
the shared region is currently mapped into the client. -/
structure EncoderIpcClient where
  m_sharedMemory : Bool
  m_sharedPtr : Bool
  m_frameReadyEvent : Bool
  m_packetReadyEvent : Bool
  m_encoderReadyEvent : Bool
  m_encoderProcess : Bool
  m_width : Nat
  m_height : Nat
  m_codec : String
  m_connected : Bool
deriving Repr, DecidableEq

/-- A default-constructed `EncoderIpcClient` (all members null / zero). -/
def EncoderIpcClient.fresh : EncoderIpcClient :=
  { m_sharedMemory := false
    m_sharedPtr := false
    m_frameReadyEvent := false
    m_packetReadyEvent := false
    m_encoderReadyEvent := false
    m_encoderProcess := false
    m_width := 0
    m_height := 0
    m_codec := ""
    m_connected := false }

/-- Member `IsConnected()` from `Arm64EncoderIpc.h`. -/
def EncoderIpcClient.IsConnected (c : EncoderIpcClient) : Bool :=
  c.m_connected

/-- The arguments of `EncoderIpcClient::SendFrame`. -/
structure SendFrameInput where
  data : Nat → Nat
  data_size : Nat
  width : Nat
  height : Nat
  row_pitch : Nat
  timestamp_ns : Nat
  insert_idr : Bool
  format : PixelFormat

/-- The result of `EncoderIpcClient::SendFrame`: the returned `bool`, the
shared region after the call, and what happened with `SetEvent`. -/
structure SendFrameResult where
  ok : Bool
  shared : SharedMemoryLayout
  attemptedRaise : Bool
  raisedFrameReady : Bool

/-- Method `EncoderIpcClient::SendFrame` from `Arm64EncoderIpc.cpp` (lines 170-210).
`setEventOk` is the oracle for the success of `SetEvent(m_frameReadyEvent)`. -/
def SendFrame (c : EncoderIpcClient) (shared : SharedMemoryLayout)
    (inp : SendFrameInput) (setEventOk : Bool) : SendFrameResult :=
  if !c.m_connected || !c.m_sharedPtr then
    { ok := false, shared := shared, attemptedRaise := false, raisedFrameReady := false }
  else if inp.data_size > FRAME_BUFFER_SIZE then
    { ok := false, shared := shared, attemptedRaise := false, raisedFrameReady := false }
  else
    let shared' : SharedMemoryLayout :=
      { shared with
        frame_header :=
          { width := inp.width
            height := inp.height
            timestamp_ns := inp.timestamp_ns
            insert_idr := if inp.insert_idr then 1 else 0
            pixel_format := inp.format.toByte
            row_pitch := inp.row_pitch
            data_size := inp.data_size
            shutdown := 0 }
        frame_buffer := fun i => if i < inp.data_size then inp.data i else shared.frame_buffer i }
    { ok := setEventOk, shared := shared', attemptedRaise := true, raisedFrameReady := setEventOk }

/-- Method `EncoderIpcClient::ReceivePacket` from `Arm64EncoderIpc.cpp` (lines
212-239).  `packet_data`, `timestamp_ns`, `is_idr` are the by-reference output
arguments before the call; `signalFired` is the oracle for
`WaitForSingleObject(m_packetReadyEvent, timeout_ms) == WAIT_OBJECT_0`.
The result is the returned `bool` together with the three outputs after the
call (unchanged on every failure path, exactly as in the C++). -/
def ReceivePacket (c : EncoderIpcClient) (shared : SharedMemoryLayout)
    (packet_data : List Nat) (timestamp_ns : Nat) (is_idr : Bool)
    (signalFired : Bool) : Bool × List Nat × Nat × Bool :=
  if !c.m_connected || !c.m_sharedPtr then
    (false, packet_data, timestamp_ns, is_idr)
  else if !signalFired then
    (false, packet_data, timestamp_ns, is_idr)
  else
    let size := shared.packet_header.size
    if size > PACKET_BUFFER_SIZE then
      (false, packet_data, timestamp_ns, is_idr)
    else
      (true, (List.range size).map shared.packet_buffer,
        shared.packet_header.timestamp_ns,
        shared.packet_header.is_idr != 0)

/-- The result of `EncoderIpcClient::Shutdown`: the client and shared region
after the call, plus its observable effects. -/
structure ShutdownResult where
  client : EncoderIpcClient
  shared : SharedMemoryLayout
  wroteShutdownFlag : Bool
  raisedFrameReady : Bool
  processWaitMs : Nat

/-- Method `EncoderIpcClient::Shutdown` from `Arm64EncoderIpc.cpp` (lines 75-113).
`processExitDelayMs` is the oracle for how long the encoder process takes to
exit; `WaitForSingleObject(m_encoderProcess, 3000)` waits for it at most
3000 ms. -/
def Shutdown (c : EncoderIpcClient) (shared : SharedMemoryLayout)
    (processExitDelayMs : Nat) : ShutdownResult :=
  let writes := c.m_sharedPtr && c.m_connected
  let shared' :=
    if writes then
      { shared with frame_header := { shared.frame_header with shutdown := 1 } }
    else shared
  { client :=
      { c with
        m_sharedMemory := false
        m_sharedPtr := false
        m_frameReadyEvent := false
        m_packetReadyEvent := false
        m_encoderReadyEvent := false
        m_encoderProcess := false
        m_connected := false }
    shared := shared'
    wroteShutdownFlag := writes
    raisedFrameReady := writes && c.m_frameReadyEvent
    processWaitMs := if c.m_encoderProcess then min processExitDelayMs 3000 else 0 }

/-- The OS-interaction oracle for `EncoderIpcClient::Initialize` and
`EncoderIpcClient::LaunchEncoderProcess`:
* `attachOk`: the first `OpenFileMappingW` finds the existing shared region;
* `workerExeExists`: `std::filesystem::exists` finds the worker executable
  (`alvr_encoder_arm64.exe` in the directory of the host's own binary);
* `createProcessOk`: `CreateProcessW` succeeds;
* `regionAppearsAt`: the 0-based polling iteration at which `OpenFileMappingW`
  first succeeds after the launch (`none` if the region never appears);
* `mapOk`: `MapViewOfFile` succeeds;
* `frameEventOk`, `packetEventOk`, `encoderEventOk`: the three `OpenEventW`;
* `workerReadySignaled`: `WaitForSingleObject(m_encoderReadyEvent, 5000)`
  returns `WAIT_OBJECT_0` within the readiness timeout;
* `processExitDelayMs`: how long the worker takes to exit, used by the
  `Shutdown` invoked on failure paths. -/
structure InitOracle where
  attachOk : Bool
  workerExeExists : Bool
  createProcessOk : Bool
  regionAppearsAt : Option Nat
  mapOk : Bool
  frameEventOk : Bool
  packetEventOk : Bool
  encoderEventOk : Bool
  workerReadySignaled : Bool
  processExitDelayMs : Nat
deriving Repr, DecidableEq

/-- Observable effects of `EncoderIpcClient::Initialize`:
* `launched`: `CreateProcessW` succeeded and a worker process was started;
* `launchArgs`: the positional arguments `width height codec` appended to the
  worker executable's path on the command line (`none` if `CreateProcessW`
  was never reached);
* `pollAttempts`: how many `Sleep(100); OpenFileMappingW(...)` iterations of
  the 50-iteration polling loop ran;
* `pollIntervalMs`: the fixed sleep between polling attempts (100 ms). -/
structure InitEffects where
  launched : Bool
  launchArgs : Option (Nat × Nat × String)
  pollAttempts : Nat
  pollIntervalMs : Nat
deriving Repr, DecidableEq

/-- The result of `EncoderIpcClient::Initialize`. -/
structure InitResult where
  ok : Bool
  client : EncoderIpcClient
  shared : SharedMemoryLayout
  effects : InitEffects

/-- The polling loop of `Initialize` (`for (int i = 0; i < 50; i++) ...`):
each iteration sleeps 100 ms and retries `OpenFileMappingW`, breaking as soon
as it succeeds.  Returns the number of iterations run and whether the region
was found. -/
def pollForRegion (regionAppearsAt : Option Nat) : Nat × Bool :=
  match regionAppearsAt with
  | some k => if k < 50 then (k + 1, true) else (50, false)
  | none => (50, false)

/-- Method `EncoderIpcClient::LaunchEncoderProcess` from `Arm64EncoderIpc.cpp`
(lines 115-160): locates `alvr_encoder_arm64.exe` next to the current
executable, fails if it does not exist, and otherwise runs it with the
command line `<exe> <m_width> <m_height> <m_codec>`.  Returns the returned
`bool`, the client after the call, and the positional arguments passed to
`CreateProcessW` (if it was reached). -/
def LaunchEncoderProcess (c : EncoderIpcClient) (o : InitOracle) :
    Bool × EncoderIpcClient × Option (Nat × Nat × String) :=
  if !o.workerExeExists then
    (false, c, none)
  else
    let args := some (c.m_width, c.m_height, c.m_codec)
    if !o.createProcessOk then
      (false, c, args)
    else
      (true, { c with m_encoderProcess := true }, args)

/-- Method `EncoderIpcClient::WaitForEncoderReady` from `Arm64EncoderIpc.cpp`
(lines 162-168): false when `m_encoderReadyEvent` is null, otherwise whether
the event was signaled within the timeout. -/
def WaitForEncoderReady (c : EncoderIpcClient) (signaled : Bool) : Bool :=
  if !c.m_encoderReadyEvent then false else signaled

/-- The tail of `Initialize` once `m_sharedMemory` holds a region handle:
`MapViewOfFile`, the three `OpenEventW`, and `WaitForEncoderReady`, with the
teardown `Shutdown()` on the event and readiness failure paths
(`Arm64EncoderIpc.cpp` lines 42-72). -/
def InitializeAfterRegion (c : EncoderIpcClient) (shared : SharedMemoryLayout)
    (o : InitOracle) (eff : InitEffects) : InitResult :=
  let c := { c with m_sharedPtr := o.mapOk }
  if !o.mapOk then
    { ok := false, client := { c with m_sharedMemory := false }, shared := shared,
      effects := eff }
  else
    let c :=
      { c with
        m_frameReadyEvent := o.frameEventOk
        m_packetReadyEvent := o.packetEventOk
        m_encoderReadyEvent := o.encoderEventOk }
    if !(o.frameEventOk && o.packetEventOk && o.encoderEventOk) then
      let r := Shutdown c shared o.processExitDelayMs
      { ok := false, client := r.client, shared := r.shared, effects := eff }
    else if !(WaitForEncoderReady c o.workerReadySignaled) then
      let r := Shutdown c shared o.processExitDelayMs
      { ok := false, client := r.client, shared := r.shared, effects := eff }
    else
      { ok := true, client := { c with m_connected := true }, shared := shared,
        effects := eff }

/-- Method `EncoderIpcClient::Initialize` from `Arm64EncoderIpc.cpp` (lines 12-73):
stores `width`, `height`, `codec`; attempts to attach to the existing shared
region; if absent, launches the worker and polls for the region (100 ms
interval, at most 50 attempts); then maps the region, opens the three events,
and waits for worker readiness, tearing down on failure. -/
def Initialize (c0 : EncoderIpcClient) (shared : SharedMemoryLayout)
    (width height : Nat) (codec : String) (o : InitOracle) : InitResult :=
  let c := { c0 with m_width := width, m_height := height, m_codec := codec }
  let c := { c with m_sharedMemory := o.attachOk }
  if o.attachOk then
    InitializeAfterRegion c shared o
      { launched := false, launchArgs := none, pollAttempts := 0, pollIntervalMs := 100 }
  else
    match LaunchEncoderProcess c o with
    | (false, c', args) =>
      { ok := false, client := c', shared := shared,
        effects :=
          { launched := false, launchArgs := args, pollAttempts := 0, pollIntervalMs := 100 } }
    | (true, c', args) =>
      let (attempts, found) := pollForRegion o.regionAppearsAt
      let c' := { c' with m_sharedMemory := found }
      let eff : InitEffects :=
        { launched := true, launchArgs := args, pollAttempts := attempts,
          pollIntervalMs := 100 }
      if !found then
        { ok := false, client := c', shared := shared, effects := eff }
      else
        InitializeAfterRegion c' shared o eff

/-- Modelled from the spec: the collaborator (the ARM64 encoder worker
process, whose code is not part of the repository's `src/`) echoing the
frame slot back through the packet slot — copying the frame payload, its
size, timestamp and IDR flag into the packet buffer and packet header. -/
def echoFrameToPacket (shared : SharedMemoryLayout) : SharedMemoryLayout :=
  { shared with
    packet_header :=
      { size := shared.frame_header.data_size
        timestamp_ns := shared.frame_header.timestamp_ns
        is_idr := shared.frame_header.insert_idr }
    packet_buffer := fun i =>
      if i < shared.frame_header.data_size then shared.frame_buffer i
      else shared.packet_buffer i }

/-! ### Byte layout of the shared region

`#pragma pack(push, 1)` removes all compiler-inserted padding, so the byte
layout of the packed structs on the (little-endian) Windows target is the
declared fields in order, each little-endian in its fixed width, with only
the explicitly declared `_padding` bytes.  `bytes` serialises a header from
the source's declaration; `decodeFrameHeader` / `decodePacketHeader` read a
byte string at the offsets the layout dictates. -/

/-- The serialised form of `FrameHeader` under `#pragma pack(1)`:
`width` (4 bytes LE), `height` (4), `timestamp_ns` (8), `insert_idr` (1),
`pixel_format` (1), `row_pitch` (4), `data_size` (4), `shutdown` (1),
`_padding[3]` — 30 bytes. -/
def FrameHeader.bytes (h : FrameHeader) : List Nat :=
  [h.width % 256, h.width / 256 % 256, h.width / 256 ^ 2 % 256, h.width / 256 ^ 3 % 256,
   h.height % 256, h.height / 256 % 256, h.height / 256 ^ 2 % 256, h.height / 256 ^ 3 % 256,
   h.timestamp_ns % 256, h.timestamp_ns / 256 % 256, h.timestamp_ns / 256 ^ 2 % 256,
   h.timestamp_ns / 256 ^ 3 % 256, h.timestamp_ns / 256 ^ 4 % 256,
   h.timestamp_ns / 256 ^ 5 % 256, h.timestamp_ns / 256 ^ 6 % 256,
   h.timestamp_ns / 256 ^ 7 % 256,
   h.insert_idr % 256,
   h.pixel_format % 256,
   h.row_pitch % 256, h.row_pitch / 256 % 256, h.row_pitch / 256 ^ 2 % 256,
   h.row_pitch / 256 ^ 3 % 256,
   h.data_size % 256, h.data_size / 256 % 256, h.data_size / 256 ^ 2 % 256,
   h.data_size / 256 ^ 3 % 256,
   h.shutdown % 256,
   0, 0, 0]

/-- The serialised form of `PacketHeader` under `#pragma pack(1)`:
`size` (4 bytes LE), `timestamp_ns` (8), `is_idr` (1), `_padding[3]` —
16 bytes. -/
def PacketHeader.bytes (h : PacketHeader) : List Nat :=
  [h.size % 256, h.size / 256 % 256, h.size / 256 ^ 2 % 256, h.size / 256 ^ 3 % 256,
   h.timestamp_ns % 256, h.timestamp_ns / 256 % 256, h.timestamp_ns / 256 ^ 2 % 256,
   h.timestamp_ns / 256 ^ 3 % 256, h.timestamp_ns / 256 ^ 4 % 256,
   h.timestamp_ns / 256 ^ 5 % 256, h.timestamp_ns / 256 ^ 6 % 256,
   h.timestamp_ns / 256 ^ 7 % 256,
   h.is_idr % 256,
   0, 0, 0]

/-- Decoder at the spec's offsets: `width` at 0, `height` at 4,
`timestamp_ns` at 8, `insert_idr` at 16, `pixel_format` at 17, `row_pitch`
at 18, `data_size` at 22, `shutdown` at 26, padding at 27-29, total 30. -/
def decodeFrameHeader : List Nat → Option FrameHeader
  | [w0, w1, w2, w3, h0, h1, h2, h3, t0, t1, t2, t3, t4, t5, t6, t7,
     idr, pf, r0, r1, r2, r3, d0, d1, d2, d3, sd, _, _, _] =>
    some
      { width := w0 + 256 * w1 + 256 ^ 2 * w2 + 256 ^ 3 * w3
        height := h0 + 256 * h1 + 256 ^ 2 * h2 + 256 ^ 3 * h3
        timestamp_ns := t0 + 256 * t1 + 256 ^ 2 * t2 + 256 ^ 3 * t3 + 256 ^ 4 * t4
          + 256 ^ 5 * t5 + 256 ^ 6 * t6 + 256 ^ 7 * t7
        insert_idr := idr
        pixel_format := pf
        row_pitch := r0 + 256 * r1 + 256 ^ 2 * r2 + 256 ^ 3 * r3
        data_size := d0 + 256 * d1 + 256 ^ 2 * d2 + 256 ^ 3 * d3
        shutdown := sd }
  | _ => none

/-- Decoder at the spec's offsets: `size` at 0, `timestamp_ns` at 4,
`is_idr` at 12, padding at 13-15, total 16. -/
def decodePacketHeader : List Nat → Option PacketHeader
  | [s0, s1, s2, s3, t0, t1, t2, t3, t4, t5, t6, t7, idr, _, _, _] =>
    some
      { size := s0 + 256 * s1 + 256 ^ 2 * s2 + 256 ^ 3 * s3
        timestamp_ns := t0 + 256 * t1 + 256 ^ 2 * t2 + 256 ^ 3 * t3 + 256 ^ 4 * t4
          + 256 ^ 5 * t5 + 256 ^ 6 * t6 + 256 ^ 7 * t7
        is_idr := idr }
  | _ => none

/-- Predicate: a `FrameHeader` whose fields fit their declared C widths. -/
def FrameHeader.WF (h : FrameHeader) : Prop :=
  h.width < 2 ^ 32 ∧ h.height < 2 ^ 32 ∧ h.timestamp_ns < 2 ^ 64 ∧
    h.insert_idr < 2 ^ 8 ∧ h.pixel_format < 2 ^ 8 ∧ h.row_pitch < 2 ^ 32 ∧
    h.data_size < 2 ^ 32 ∧ h.shutdown < 2 ^ 8

/-- Predicate: a `PacketHeader` whose fields fit their declared C widths. -/
def PacketHeader.WF (h : PacketHeader) : Prop :=
  h.size < 2 ^ 32 ∧ h.timestamp_ns < 2 ^ 64 ∧ h.is_idr < 2 ^ 8

/-- The serialised form of the whole `SharedMemoryLayout`: the frame header,
the packet header, the frame buffer (`FRAME_BUFFER_SIZE` bytes), then the
packet buffer (`PACKET_BUFFER_SIZE` bytes). -/
def SharedMemoryLayout.bytes (s : SharedMemoryLayout) : List Nat :=
  s.frame_header.bytes ++ s.packet_header.bytes
    ++ (List.range FRAME_BUFFER_SIZE).map (fun i => s.frame_buffer i % 256)
    ++ (List.range PACKET_BUFFER_SIZE).map (fun i => s.packet_buffer i % 256)

/-! ### Client operation traces

A world is the client paired with the shared region; an operation is one
call into the client API, with its oracle inputs embedded. -/

/-- The client together with the shared region it maps. -/
structure World where
  client : EncoderIpcClient
  shared : SharedMemoryLayout

/-- One client operation with its oracle inputs. -/
inductive Op where
  | initOp (width height : Nat) (codec : String) (o : InitOracle)
  | sendOp (inp : SendFrameInput) (setEventOk : Bool)
  | recvOp (packet_data : List Nat) (timestamp_ns : Nat) (is_idr : Bool) (signalFired : Bool)
  | shutdownOp (processExitDelayMs : Nat)

/-- Whether an operation is an `Initialize` call. -/
def Op.isInit : Op → Bool
  | .initOp _ _ _ _ => true
  | _ => false

/-- The effect of one operation on the world (`ReceivePacket` mutates neither
the client nor the shared region). -/
def step (w : World) : Op → World
  | .initOp width height codec o =>
    let r := Initialize w.client w.shared width height codec o
    { client := r.client, shared := r.shared }
  | .sendOp inp setEventOk =>
    { client := w.client, shared := (SendFrame w.client w.shared inp setEventOk).shared }
  | .recvOp _ _ _ _ => w
  | .shutdownOp d =>
    let r := Shutdown w.client w.shared d
    { client := r.client, shared := r.shared }

/-- Run a sequence of client operations. -/
def run (w : World) : List Op → World
  | [] => w
  | op :: ops => run (step w op) ops

/-! ### Concrete fixtures used by witnesses and counterexamples -/

/-- A zeroed shared region. -/
def shared0 : SharedMemoryLayout :=
  { frame_header :=
      { width := 0, height := 0, timestamp_ns := 0, insert_idr := 0, pixel_format := 0,
        row_pitch := 0, data_size := 0, shutdown := 0 }
    packet_header := { size := 0, timestamp_ns := 0, is_idr := 0 }
    frame_buffer := fun _ => 0
    packet_buffer := fun _ => 0 }

/-- A connected client with all handles held. -/
def cConn : EncoderIpcClient :=
  { m_sharedMemory := true
    m_sharedPtr := true
    m_frameReadyEvent := true
    m_packetReadyEvent := true
    m_encoderReadyEvent := true
    m_encoderProcess := true
    m_width := 640
    m_height := 480
    m_codec := "h264"
    m_connected := true }

/-- A small frame payload (3 bytes). -/
def inpSmall : SendFrameInput :=
  { data := fun i => i + 10
    data_size := 3
    width := 640
    height := 480
    row_pitch := 2560
    timestamp_ns := 12345
    insert_idr := true
    format := .NV12 }

/-- A frame payload of exactly `FRAME_BUFFER_SIZE` bytes. -/
def inpCap : SendFrameInput :=
  { data := fun _ => 7
    data_size := FRAME_BUFFER_SIZE
    width := 4096
    height := 2160
    row_pitch := 16384
    timestamp_ns := 99
    insert_idr := true
    format := .RGBA }

/-- An oversize frame payload (one byte past `FRAME_BUFFER_SIZE`). -/
def inpOver : SendFrameInput :=
  { data := fun _ => 7
    data_size := FRAME_BUFFER_SIZE + 1
    width := 4096
    height := 2160
    row_pitch := 16384
    timestamp_ns := 99
    insert_idr := false
    format := .RGBA }

/-! ### C1 -/

/-- C1: in the Connected state, `SendFrame` with `data_size` at most the
frame buffer capacity writes the full frame header (`width`, `height`,
`timestamp_ns`, `insert_idr` and `pixel_format` as single bytes, `row_pitch`,
`data_size`, `shutdown = 0`), copies exactly `data_size` bytes from the input
into the frame buffer (leaving the rest of the buffer unchanged), attempts to
raise `frame_ready`, and returns success exactly when the raise succeeds —
in particular, when the raise fails the header and payload have already been
written. -/
theorem SendFrame_connected_writes_header_payload_and_raises
    (c : EncoderIpcClient) (shared : SharedMemoryLayout)
    (inp : SendFrameInput) (setEventOk : Bool)
    (hconn : c.m_connected = true) (hmap : c.m_sharedPtr = true)
    (hsize : inp.data_size ≤ FRAME_BUFFER_SIZE) :
    (SendFrame c shared inp setEventOk).shared.frame_header =
      { width := inp.width
        height := inp.height
        timestamp_ns := inp.timestamp_ns
        insert_idr := if inp.insert_idr then 1 else 0
        pixel_format := inp.format.toByte
        row_pitch := inp.row_pitch
        data_size := inp.data_size
        shutdown := 0 } ∧
    (∀ i, i < inp.data_size →
      (SendFrame c shared inp setEventOk).shared.frame_buffer i = inp.data i) ∧
    (∀ i, inp.data_size ≤ i →
      (SendFrame c shared inp setEventOk).shared.frame_buffer i = shared.frame_buffer i) ∧
    (SendFrame c shared inp setEventOk).attemptedRaise = true ∧
    (SendFrame c shared inp setEventOk).ok = setEventOk := by
  have hguard : (!c.m_connected || !c.m_sharedPtr) = false := by
    simp [hconn, hmap]
  have hbig : ¬ inp.data_size > FRAME_BUFFER_SIZE := by omega
  refine ⟨?_, ?_, ?_, ?_, ?_⟩ <;>
    simp only [SendFrame, hguard, Bool.false_eq_true, if_false, hbig, if_neg,
      not_false_iff]
  · intro i hi
    simp [hi]
  · intro i hi
    simp [Nat.not_lt.mpr hi]

/-- Witness for C1: a concrete connected client sending a 3-byte payload. -/
theorem SendFrame_connected_writes_header_payload_and_raises_witness :
    (SendFrame cConn shared0 inpSmall true).ok = true ∧
    (SendFrame cConn shared0 inpSmall true).shared.frame_buffer 1 = 11 ∧
    (SendFrame cConn shared0 inpSmall true).shared.frame_header.shutdown = 0 := by
  have h := SendFrame_connected_writes_header_payload_and_raises cConn shared0 inpSmall true
    rfl rfl (by decide)
  refine ⟨h.2.2.2.2, ?_, ?_⟩
  · have := h.2.1 1 (by decide)
    simpa [inpSmall] using this
  · rw [h.1]

/-! ### C2 -/

/-- C2: `SendFrame` with `data_size` strictly greater than
`FRAME_BUFFER_SIZE` fails and leaves the entire shared region (headers and
buffers) byte-for-byte unchanged, with no raise attempted; `data_size`
exactly equal to the capacity passes the size check, and the call then
returns the result of raising `frame_ready`. -/
theorem SendFrame_oversize_rejected_region_untouched
    (c : EncoderIpcClient) (shared : SharedMemoryLayout)
    (inp : SendFrameInput) (setEventOk : Bool) :
    (FRAME_BUFFER_SIZE < inp.data_size →
      SendFrame c shared inp setEventOk =
        { ok := false, shared := shared, attemptedRaise := false,
          raisedFrameReady := false }) ∧
    (c.m_connected = true → c.m_sharedPtr = true →
      inp.data_size = FRAME_BUFFER_SIZE →
      (SendFrame c shared inp setEventOk).ok = setEventOk ∧
      (SendFrame c shared inp setEventOk).attemptedRaise = true) := by
  constructor
  · intro hover
    by_cases hguard : (!c.m_connected || !c.m_sharedPtr) = true
    · simp [SendFrame, hguard]
    · simp only [Bool.not_eq_true] at hguard
      simp [SendFrame, hguard, hover]
  · intro hconn hmap heq
    have hguard : (!c.m_connected || !c.m_sharedPtr) = false := by
      simp [hconn, hmap]
    have hbig : ¬ inp.data_size > FRAME_BUFFER_SIZE := by omega
    simp [SendFrame, hguard, hbig]

/-- Witness for C2: the oversize payload is rejected with the region intact,
and the capacity-sized payload passes the size check. -/
theorem SendFrame_oversize_rejected_region_untouched_witness :
    (SendFrame cConn shared0 inpOver true).shared.frame_header.data_size = 0 ∧
    (SendFrame cConn shared0 inpOver true).ok = false ∧
    (SendFrame cConn shared0 inpCap true).ok = true := by
  have hover := (SendFrame_oversize_rejected_region_untouched cConn shared0 inpOver true).1
    (by decide)
  have hcap := (SendFrame_oversize_rejected_region_untouched cConn shared0 inpCap true).2
    rfl rfl rfl
  refine ⟨?_, ?_, hcap.1⟩
  · rw [hover]
    rfl
  · rw [hover]

/-! ### C3 -/

/-- C3: in the Connected state, `ReceivePacket` fails with its outputs
untouched when the `packet_ready` signal does not fire within the timeout,
and also when the packet header's `size` exceeds `PACKET_BUFFER_SIZE` (no
payload bytes copied); otherwise it returns `true`, the output vector holds
exactly `size` bytes copied from the packet buffer, and the output
`timestamp_ns` and `is_idr` come from the packet header. -/
theorem ReceivePacket_timeout_oversize_and_copy
    (c : EncoderIpcClient) (shared : SharedMemoryLayout)
    (packet_data : List Nat) (timestamp_ns : Nat) (is_idr : Bool) (signalFired : Bool)
    (hconn : c.m_connected = true) (hmap : c.m_sharedPtr = true) :
    (signalFired = false →
      ReceivePacket c shared packet_data timestamp_ns is_idr signalFired =
        (false, packet_data, timestamp_ns, is_idr)) ∧
    (signalFired = true → PACKET_BUFFER_SIZE < shared.packet_header.size →
      ReceivePacket c shared packet_data timestamp_ns is_idr signalFired =
        (false, packet_data, timestamp_ns, is_idr)) ∧
    (signalFired = true → shared.packet_header.size ≤ PACKET_BUFFER_SIZE →
      (ReceivePacket c shared packet_data timestamp_ns is_idr signalFired).1 = true ∧
      (ReceivePacket c shared packet_data timestamp_ns is_idr signalFired).2.1.length =
        shared.packet_header.size ∧
      (∀ i, i < shared.packet_header.size →
        (ReceivePacket c shared packet_data timestamp_ns is_idr signalFired).2.1[i]? =
          some (shared.packet_buffer i)) ∧
      (ReceivePacket c shared packet_data timestamp_ns is_idr signalFired).2.2.1 =
        shared.packet_header.timestamp_ns ∧
      (ReceivePacket c shared packet_data timestamp_ns is_idr signalFired).2.2.2 =
        (shared.packet_header.is_idr != 0)) := by
  have hguard : (!c.m_connected || !c.m_sharedPtr) = false := by
    simp [hconn, hmap]
  refine ⟨?_, ?_, ?_⟩
  · intro hf
    simp [ReceivePacket, hguard, hf]
  · intro hf hover
    simp [ReceivePacket, hguard, hf, hover]
  · intro hf hsize
    have hover : ¬ shared.packet_header.size > PACKET_BUFFER_SIZE := by omega
    refine ⟨?_, ?_, ?_, ?_, ?_⟩ <;>
      simp only [ReceivePacket, hguard, Bool.false_eq_true, if_false, hf,
        Bool.not_true, hover, if_neg, not_false_iff]
    · simp
    · intro i hi
      simp [List.getElem?_map, List.getElem?_range, hi]

/-- Witness for C3: a concrete connected client; a 2-byte packet is copied
out, a timed-out wait leaves the outputs alone. -/
theorem ReceivePacket_timeout_oversize_and_copy_witness :
    (ReceivePacket cConn
        { shared0 with
          packet_header := { size := 2, timestamp_ns := 5, is_idr := 1 }
          packet_buffer := fun i => i + 40 }
        [9] 3 false true).2.1[1]? = some 41 ∧
    (ReceivePacket cConn shared0 [9] 3 false false) = (false, [9], 3, false) := by
  have hcopy := (ReceivePacket_timeout_oversize_and_copy cConn
    { shared0 with
      packet_header := { size := 2, timestamp_ns := 5, is_idr := 1 }
      packet_buffer := fun i => i + 40 }
    [9] 3 false true rfl rfl).2.2 rfl (by decide)
  have htimeout := (ReceivePacket_timeout_oversize_and_copy cConn shared0
    [9] 3 false false rfl rfl).1 rfl
  exact ⟨(hcopy.2.2.1 1 (by decide)).trans rfl, htimeout⟩

/-! ### C4 -/

/-- Counterexample to C4 as stated: at the boundary size
`FRAME_BUFFER_SIZE` (= 35389440 bytes), `SendFrame` succeeds, but the
echoed packet's `size` exceeds `PACKET_BUFFER_SIZE` (= 4194304 bytes), so
`ReceivePacket` rejects it instead of returning the payload: the round trip
does not hold at the claimed boundary sizes `capacity` and `capacity - 1`. -/
theorem roundTrip_fails_at_frame_capacity :
    (SendFrame cConn shared0 inpCap true).ok = true ∧
    (ReceivePacket cConn (echoFrameToPacket (SendFrame cConn shared0 inpCap true).shared)
        [] 0 false true).1 = false := by
  constructor
  · rfl
  · rfl

/-- C4 amended: the round trip holds for every payload of size at most
`PACKET_BUFFER_SIZE` (the capacity of the return channel, 4 MiB — not
`FRAME_BUFFER_SIZE`): `SendFrame` succeeds, and after the collaborator echoes
the frame slot into the packet slot, `ReceivePacket` returns `true`, exactly
the sent bytes, and the sent size, timestamp and IDR flag. -/
theorem roundTrip_within_packet_capacity
    (c : EncoderIpcClient) (shared : SharedMemoryLayout) (inp : SendFrameInput)
    (packet_data : List Nat) (timestamp_ns : Nat) (is_idr : Bool)
    (hconn : c.m_connected = true) (hmap : c.m_sharedPtr = true)
    (hsize : inp.data_size ≤ PACKET_BUFFER_SIZE) :
    (SendFrame c shared inp true).ok = true ∧
    (ReceivePacket c (echoFrameToPacket (SendFrame c shared inp true).shared)
        packet_data timestamp_ns is_idr true).1 = true ∧
    (ReceivePacket c (echoFrameToPacket (SendFrame c shared inp true).shared)
        packet_data timestamp_ns is_idr true).2.1.length = inp.data_size ∧
    (∀ i, i < inp.data_size →
      (ReceivePacket c (echoFrameToPacket (SendFrame c shared inp true).shared)
          packet_data timestamp_ns is_idr true).2.1[i]? = some (inp.data i)) ∧
    (ReceivePacket c (echoFrameToPacket (SendFrame c shared inp true).shared)
        packet_data timestamp_ns is_idr true).2.2.1 = inp.timestamp_ns ∧
    (ReceivePacket c (echoFrameToPacket (SendFrame c shared inp true).shared)
        packet_data timestamp_ns is_idr true).2.2.2 = inp.insert_idr := by
  have hguard : (!c.m_connected || !c.m_sharedPtr) = false := by
    simp [hconn, hmap]
  have hfb : inp.data_size ≤ FRAME_BUFFER_SIZE := by
    have : PACKET_BUFFER_SIZE ≤ FRAME_BUFFER_SIZE := by decide
    omega
  have hbig : ¬ inp.data_size > FRAME_BUFFER_SIZE := by omega
  have hsend :
      (SendFrame c shared inp true).shared.frame_header.data_size = inp.data_size ∧
      (SendFrame c shared inp true).shared.frame_header.timestamp_ns = inp.timestamp_ns ∧
      (SendFrame c shared inp true).shared.frame_header.insert_idr =
        (if inp.insert_idr then 1 else 0) ∧
      (∀ i, i < inp.data_size →
        (SendFrame c shared inp true).shared.frame_buffer i = inp.data i) ∧
      (SendFrame c shared inp true).ok = true := by
    refine ⟨?_, ?_, ?_, ?_, ?_⟩ <;>
      simp only [SendFrame, hguard, Bool.false_eq_true, if_false, hbig, if_neg,
        not_false_iff]
    intro i hi
    simp [hi]
  have hover : ¬ (echoFrameToPacket (SendFrame c shared inp true).shared).packet_header.size
      > PACKET_BUFFER_SIZE := by
    simp only [echoFrameToPacket, hsend.1]
    omega
  refine ⟨hsend.2.2.2.2, ?_, ?_, ?_, ?_, ?_⟩ <;>
    simp only [ReceivePacket, hguard, Bool.false_eq_true, if_false, Bool.not_true,
      hover, if_neg, not_false_iff]
  · simp [echoFrameToPacket, hsend.1]
  · intro i hi
    have hi' : i < (echoFrameToPacket (SendFrame c shared inp true).shared).packet_header.size := by
      simpa [echoFrameToPacket, hsend.1] using hi
    simp only [List.getElem?_map, List.getElem?_range, hi', Option.map_some]
    simp [echoFrameToPacket, hsend.1, hi, hsend.2.2.2.1 i hi]
  · simp [echoFrameToPacket, hsend.2.1]
  · simp only [echoFrameToPacket, hsend.2.2.1]
    cases inp.insert_idr <;> simp

/-- Witness for C4's amended round trip: a concrete 3-byte payload comes back
bit-for-bit. -/
theorem roundTrip_within_packet_capacity_witness :
    (SendFrame cConn shared0 inpSmall true).ok = true ∧
    (ReceivePacket cConn (echoFrameToPacket (SendFrame cConn shared0 inpSmall true).shared)
        [] 0 false true).2.1[2]? = some 12 ∧
    (ReceivePacket cConn (echoFrameToPacket (SendFrame cConn shared0 inpSmall true).shared)
        [] 0 false true).2.2.2 = true := by
  have h := roundTrip_within_packet_capacity cConn shared0 inpSmall [] 0 false
    rfl rfl (by decide)
  refine ⟨h.1, ?_, ?_⟩
  · exact (h.2.2.2.1 2 (by decide)).trans rfl
  · rw [h.2.2.2.2.2]
    rfl

/-! ### C5 -/

/-- C5: `Shutdown` is a total operation on every client state (before any
`Initialize`, after a previous `Shutdown`, anywhere): on return the mapping,
the mapping handle, all three signal handles and the process handle are
released and the connected flag is cleared; the wait for process exit is
bounded by 3000 ms; a second call in a row is a no-op on the released state
(same client, same region, no flag write, no raise, no wait); and the
shutdown flag is written — and `frame_ready` raised — only when the client
was connected with a mapped region. -/
theorem Shutdown_releases_all_idempotent_bounded
    (c : EncoderIpcClient) (shared : SharedMemoryLayout) (d d2 : Nat) :
    (Shutdown c shared d).client.m_sharedPtr = false ∧
    (Shutdown c shared d).client.m_sharedMemory = false ∧
    (Shutdown c shared d).client.m_frameReadyEvent = false ∧
    (Shutdown c shared d).client.m_packetReadyEvent = false ∧
    (Shutdown c shared d).client.m_encoderReadyEvent = false ∧
    (Shutdown c shared d).client.m_encoderProcess = false ∧
    (Shutdown c shared d).client.m_connected = false ∧
    (Shutdown c shared d).processWaitMs ≤ 3000 ∧
    Shutdown (Shutdown c shared d).client (Shutdown c shared d).shared d2 =
      { client := (Shutdown c shared d).client
        shared := (Shutdown c shared d).shared
        wroteShutdownFlag := false
        raisedFrameReady := false
        processWaitMs := 0 } ∧
    (Shutdown c shared d).wroteShutdownFlag = (c.m_sharedPtr && c.m_connected) ∧
    (Shutdown c shared d).raisedFrameReady =
      (c.m_sharedPtr && c.m_connected && c.m_frameReadyEvent) := by
  refine ⟨rfl, rfl, rfl, rfl, rfl, rfl, rfl, ?_, rfl, rfl, rfl⟩
  simp only [Shutdown]
  split
  · exact min_le_right d 3000
  · exact Nat.zero_le 3000

/-! ### C6 -/

/-- An oracle under which every OS interaction of `Initialize` succeeds. -/
def oAllOk : InitOracle :=
  { attachOk := true
    workerExeExists := true
    createProcessOk := true
    regionAppearsAt := some 0
    mapOk := true
    frameEventOk := true
    packetEventOk := true
    encoderEventOk := true
    workerReadySignaled := true
    processExitDelayMs := 0 }

/-- Counterexample to C6 as stated: in the operation sequence
`Shutdown; Initialize (successful); SendFrame`, the `Shutdown` sets the
shared header's `shutdown` flag to 1, and the later `SendFrame` — executed
legitimately, because the successful `Initialize` reconnected the client —
writes it back to 0.  The flag is therefore not monotonic over sequences
that contain `Initialize`. -/
theorem shutdown_flag_cleared_after_reinit :
    (run { client := cConn, shared := shared0 }
        [Op.shutdownOp 0]).shared.frame_header.shutdown = 1 ∧
    (run { client := cConn, shared := shared0 }
        [Op.shutdownOp 0, Op.initOp 640 480 "h264" oAllOk,
         Op.sendOp inpSmall true]).shared.frame_header.shutdown = 0 := by
  constructor
  · rfl
  · rfl

/-- C6 amended: the `shutdown` flag is monotonic with respect to every
client operation except a successful re-`Initialize`: from any world where
the client is disconnected (as `Shutdown` leaves it) and the flag is set, any
sequence of `SendFrame` / `ReceivePacket` / `Shutdown` operations — no
`Initialize` — leaves the flag set (and the client disconnected). -/
theorem shutdown_flag_monotone_without_reinit
    (w : World) (ops : List Op)
    (hconn : w.client.m_connected = false)
    (hflag : w.shared.frame_header.shutdown = 1)
    (hnoinit : ∀ op ∈ ops, op.isInit = false) :
    (run w ops).shared.frame_header.shutdown = 1 ∧
    (run w ops).client.m_connected = false := by
  induction ops generalizing w with
  | nil => exact ⟨hflag, hconn⟩
  | cons op rest ih =>
    have hop := hnoinit op (List.mem_cons_self op rest)
    have hrest : ∀ o ∈ rest, o.isInit = false := fun o ho =>
      hnoinit o (List.mem_cons_of_mem op ho)
    cases op with
    | initOp width height codec o => simp [Op.isInit] at hop
    | sendOp inp setEventOk =>
      refine ih _ ?_ ?_ hrest
      · simpa [step] using hconn
      · simpa [step, SendFrame, hconn] using hflag
    | recvOp pd ts idr f =>
      exact ih _ (by simpa [step] using hconn) (by simpa [step] using hflag) hrest
    | shutdownOp d =>
      refine ih _ ?_ ?_ hrest
      · simp [step, Shutdown]
      · simpa [step, Shutdown, hconn] using hflag

/-- Witness for C6's amended monotonicity: from a disconnected world with the
flag set, a further `Shutdown` and an (ineffective) `SendFrame` leave it
set. -/
theorem shutdown_flag_monotone_without_reinit_witness :
    (run { client := EncoderIpcClient.fresh,
           shared := { shared0 with
             frame_header := { shared0.frame_header with shutdown := 1 } } }
        [Op.shutdownOp 0, Op.sendOp inpSmall true]).shared.frame_header.shutdown = 1 := by
  exact (shutdown_flag_monotone_without_reinit
    { client := EncoderIpcClient.fresh,
      shared := { shared0 with
        frame_header := { shared0.frame_header with shutdown := 1 } } }
    [Op.shutdownOp 0, Op.sendOp inpSmall true]
    rfl rfl (by intro op hop; simp [Op.isInit] at hop ⊢; rcases hop with h | h <;> simp [h])).1

/-! ### C7 -/

/-- Helper fact: `InitializeAfterRegion` returns the effect record it was given: launching
and polling happen only before the region is in hand. -/
theorem InitializeAfterRegion_effects (c : EncoderIpcClient) (shared : SharedMemoryLayout)
    (o : InitOracle) (eff : InitEffects) :
    (InitializeAfterRegion c shared o eff).effects = eff := by
  simp only [InitializeAfterRegion]
  split
  · rfl
  · split
    · rfl
    · split
      · rfl
      · rfl

/-- C7: `Initialize` first attempts to attach to the existing shared region —
if it is there, nothing is launched and nothing is polled.  If it is absent,
the call fails without launching when the worker executable is missing;
otherwise `CreateProcessW` is invoked with the positional arguments
`width height codec`.  Polling for the region runs at a fixed 100 ms interval
for at most 50 attempts, and when the worker was launched but the region
never appears within that budget the call fails after exactly 50 attempts. -/
theorem Initialize_attach_launch_poll
    (c0 : EncoderIpcClient) (shared : SharedMemoryLayout)
    (width height : Nat) (codec : String) (o : InitOracle) :
    (o.attachOk = true →
      (Initialize c0 shared width height codec o).effects =
        { launched := false, launchArgs := none, pollAttempts := 0,
          pollIntervalMs := 100 }) ∧
    (o.attachOk = false → o.workerExeExists = false →
      (Initialize c0 shared width height codec o).ok = false ∧
      (Initialize c0 shared width height codec o).effects.launched = false ∧
      (Initialize c0 shared width height codec o).effects.launchArgs = none) ∧
    (o.attachOk = false → o.workerExeExists = true →
      (Initialize c0 shared width height codec o).effects.launchArgs =
        some (width, height, codec)) ∧
    (Initialize c0 shared width height codec o).effects.pollIntervalMs = 100 ∧
    (Initialize c0 shared width height codec o).effects.pollAttempts ≤ 50 ∧
    (o.attachOk = false → o.workerExeExists = true → o.createProcessOk = true →
      (∀ k, o.regionAppearsAt = some k → 50 ≤ k) →
      (Initialize c0 shared width height codec o).ok = false ∧
      (Initialize c0 shared width height codec o).effects.pollAttempts = 50) := by
  refine ⟨?_, ?_, ?_, ?_, ?_, ?_⟩
  · intro ha
    simp [Initialize, ha, InitializeAfterRegion_effects]
  · intro ha hexe
    simp [Initialize, ha, LaunchEncoderProcess, hexe]
  · intro ha hexe
    by_cases hcp : o.createProcessOk = true
    · rcases hra : o.regionAppearsAt with _ | k
      · simp [Initialize, ha, LaunchEncoderProcess, hexe, hcp, pollForRegion, hra]
      · by_cases hk : k < 50
        · simp [Initialize, ha, LaunchEncoderProcess, hexe, hcp, pollForRegion, hra, hk,
            InitializeAfterRegion_effects]
        · simp [Initialize, ha, LaunchEncoderProcess, hexe, hcp, pollForRegion, hra, hk]
    · simp only [Bool.not_eq_true] at hcp
      simp [Initialize, ha, LaunchEncoderProcess, hexe, hcp]
  · by_cases ha : o.attachOk = true
    · simp [Initialize, ha, InitializeAfterRegion_effects]
    · simp only [Bool.not_eq_true] at ha
      by_cases hexe : o.workerExeExists = true
      · by_cases hcp : o.createProcessOk = true
        · rcases hra : o.regionAppearsAt with _ | k
          · simp [Initialize, ha, LaunchEncoderProcess, hexe, hcp, pollForRegion, hra]
          · by_cases hk : k < 50
            · simp [Initialize, ha, LaunchEncoderProcess, hexe, hcp, pollForRegion, hra,
                hk, InitializeAfterRegion_effects]
            · simp [Initialize, ha, LaunchEncoderProcess, hexe, hcp, pollForRegion, hra, hk]
        · simp only [Bool.not_eq_true] at hcp
          simp [Initialize, ha, LaunchEncoderProcess, hexe, hcp]
      · simp only [Bool.not_eq_true] at hexe
        simp [Initialize, ha, LaunchEncoderProcess, hexe]
  · by_cases ha : o.attachOk = true
    · simp [Initialize, ha, InitializeAfterRegion_effects]
    · simp only [Bool.not_eq_true] at ha
      by_cases hexe : o.workerExeExists = true
      · by_cases hcp : o.createProcessOk = true
        · rcases hra : o.regionAppearsAt with _ | k
          · simp [Initialize, ha, LaunchEncoderProcess, hexe, hcp, pollForRegion, hra]
          · by_cases hk : k < 50
            · simp only [Initialize, ha, LaunchEncoderProcess, hexe, hcp, pollForRegion,
                hra, hk, InitializeAfterRegion_effects]
              simp [InitializeAfterRegion_effects]
              omega
            · simp [Initialize, ha, LaunchEncoderProcess, hexe, hcp, pollForRegion, hra, hk]
        · simp only [Bool.not_eq_true] at hcp
          simp [Initialize, ha, LaunchEncoderProcess, hexe, hcp]
      · simp only [Bool.not_eq_true] at hexe
        simp [Initialize, ha, LaunchEncoderProcess, hexe]
  · intro ha hexe hcp hlate
    rcases hra : o.regionAppearsAt with _ | k
    · simp [Initialize, ha, LaunchEncoderProcess, hexe, hcp, pollForRegion, hra]
    · have hk : ¬ k < 50 := by
        have := hlate k hra
        omega
      simp [Initialize, ha, LaunchEncoderProcess, hexe, hcp, pollForRegion, hra, hk]

/-- Witness for C7: with the region initially present nothing is launched;
with the region absent and the worker executable missing the call fails. -/
theorem Initialize_attach_launch_poll_witness :
    (Initialize EncoderIpcClient.fresh shared0 640 480 "h264" oAllOk).effects =
      { launched := false, launchArgs := none, pollAttempts := 0, pollIntervalMs := 100 } ∧
    (Initialize EncoderIpcClient.fresh shared0 640 480 "h264"
        { oAllOk with attachOk := false, workerExeExists := false }).ok = false := by
  constructor
  · exact (Initialize_attach_launch_poll EncoderIpcClient.fresh shared0 640 480 "h264"
      oAllOk).1 rfl
  · exact ((Initialize_attach_launch_poll EncoderIpcClient.fresh shared0 640 480 "h264"
      { oAllOk with attachOk := false, workerExeExists := false }).2.1 rfl rfl).1

/-! ### C8 -/

/-- C8: when the region is mapped and the three signals open but
`worker_ready` is never raised within the readiness timeout, `Initialize`
fails and has performed a full teardown on return: the mapping, the mapping
handle, all three signal handles and the process handle are all released,
and the client is not connected. -/
theorem Initialize_ready_timeout_full_teardown
    (c0 : EncoderIpcClient) (shared : SharedMemoryLayout)
    (width height : Nat) (codec : String) (o : InitOracle)
    (hmap : o.mapOk = true) (hf : o.frameEventOk = true)
    (hp : o.packetEventOk = true) (he : o.encoderEventOk = true)
    (hws : o.workerReadySignaled = false)
    (hregion : o.attachOk = true ∨
      (o.workerExeExists = true ∧ o.createProcessOk = true ∧
        ∃ k, o.regionAppearsAt = some k ∧ k < 50)) :
    (Initialize c0 shared width height codec o).ok = false ∧
    (Initialize c0 shared width height codec o).client.m_sharedPtr = false ∧
    (Initialize c0 shared width height codec o).client.m_sharedMemory = false ∧
    (Initialize c0 shared width height codec o).client.m_frameReadyEvent = false ∧
    (Initialize c0 shared width height codec o).client.m_packetReadyEvent = false ∧
    (Initialize c0 shared width height codec o).client.m_encoderReadyEvent = false ∧
    (Initialize c0 shared width height codec o).client.m_encoderProcess = false ∧
    (Initialize c0 shared width height codec o).client.m_connected = false := by
  have hafter : ∀ c eff,
      (InitializeAfterRegion c shared o eff).ok = false ∧
      (InitializeAfterRegion c shared o eff).client.m_sharedPtr = false ∧
      (InitializeAfterRegion c shared o eff).client.m_sharedMemory = false ∧
      (InitializeAfterRegion c shared o eff).client.m_frameReadyEvent = false ∧
      (InitializeAfterRegion c shared o eff).client.m_packetReadyEvent = false ∧
      (InitializeAfterRegion c shared o eff).client.m_encoderReadyEvent = false ∧
      (InitializeAfterRegion c shared o eff).client.m_encoderProcess = false ∧
      (InitializeAfterRegion c shared o eff).client.m_connected = false := by
    intro c eff
    simp [InitializeAfterRegion, hmap, hf, hp, he, WaitForEncoderReady, hws, Shutdown]
  rcases hregion with ha | ⟨hexe, hcp, k, hra, hk⟩
  · simpa [Initialize, ha] using hafter _ _
  · by_cases ha : o.attachOk = true
    · simpa [Initialize, ha] using hafter _ _
    · simp only [Bool.not_eq_true] at ha
      simpa [Initialize, ha, LaunchEncoderProcess, hexe, hcp, pollForRegion, hra, hk]
        using hafter _ _

/-- Witness for C8: a concrete oracle where everything succeeds except the
readiness wait — the call fails and every handle is released. -/
theorem Initialize_ready_timeout_full_teardown_witness :
    (Initialize EncoderIpcClient.fresh shared0 640 480 "h264"
        { oAllOk with workerReadySignaled := false }).ok = false ∧
    (Initialize EncoderIpcClient.fresh shared0 640 480 "h264"
        { oAllOk with workerReadySignaled := false }).client.m_connected = false := by
  have h := Initialize_ready_timeout_full_teardown EncoderIpcClient.fresh shared0
    640 480 "h264" { oAllOk with workerReadySignaled := false }
    rfl rfl rfl rfl rfl (Or.inl rfl)
  exact ⟨h.1, h.2.2.2.2.2.2.2⟩

/-! ### C9 -/

/-- C9: the packed shared-region layout matches the spec byte for byte.
`FrameHeader` serialises to exactly 30 bytes and reading a serialised
header back at the spec's offsets (`width` at 0, `height` at 4,
`timestamp_ns` at 8, `insert_idr` at 16, `pixel_format` at 17, `row_pitch`
at 18, `data_size` at 22, `shutdown` at 26, 3 padding bytes) recovers every
field; `PacketHeader` serialises to exactly 16 bytes (`size` at 0,
`timestamp_ns` at 4, `is_idr` at 12, 3 padding bytes) and decodes back the
same way; the headers are followed by a frame buffer of 4096×2160×4 =
35389440 bytes and a packet buffer of 4 MiB = 4194304 bytes, for a shared
region of 30 + 16 + 35389440 + 4194304 bytes. -/
theorem shared_region_layout
    (h : FrameHeader) (p : PacketHeader) (s : SharedMemoryLayout)
    (hwf : h.WF) (pwf : p.WF) :
    h.bytes.length = 30 ∧
    decodeFrameHeader h.bytes = some h ∧
    p.bytes.length = 16 ∧
    decodePacketHeader p.bytes = some p ∧
    FRAME_BUFFER_SIZE = 35389440 ∧
    PACKET_BUFFER_SIZE = 4194304 ∧
    s.bytes.length = 30 + 16 + FRAME_BUFFER_SIZE + PACKET_BUFFER_SIZE := by
  obtain ⟨hw, hh, ht, hi, hpf, hr, hd, hs⟩ := hwf
  obtain ⟨ps, pt, pi⟩ := pwf
  refine ⟨rfl, ?_, rfl, ?_, by decide, by decide, ?_⟩
  · simp only [FrameHeader.bytes, decodeFrameHeader, Option.some.injEq]
    obtain ⟨w, hgt, ts, idr, pf, rp, ds, sd⟩ := h
    simp only [FrameHeader.mk.injEq] at *
    refine ⟨?_, ?_, ?_, ?_, ?_, ?_, ?_, ?_⟩ <;> omega
  · simp only [PacketHeader.bytes, decodePacketHeader, Option.some.injEq]
    obtain ⟨sz, ts, idr⟩ := p
    simp only [PacketHeader.mk.injEq] at *
    refine ⟨?_, ?_, ?_⟩ <;> omega
  · simp only [SharedMemoryLayout.bytes, FrameHeader.bytes, PacketHeader.bytes,
      List.length_append, List.length_map, List.length_range, List.length_cons,
      List.length_nil]

/-- Witness for C9: a concrete in-range header pair round-trips through the
packed byte layout. -/
theorem shared_region_layout_witness :
    FrameHeader.WF
      { width := 1920, height := 1080, timestamp_ns := 123456789, insert_idr := 1,
        pixel_format := 2, row_pitch := 7680, data_size := 8294400, shutdown := 0 } ∧
    decodeFrameHeader
      (FrameHeader.bytes
        { width := 1920, height := 1080, timestamp_ns := 123456789, insert_idr := 1,
          pixel_format := 2, row_pitch := 7680, data_size := 8294400, shutdown := 0 }) =
      some
        { width := 1920, height := 1080, timestamp_ns := 123456789, insert_idr := 1,
          pixel_format := 2, row_pitch := 7680, data_size := 8294400, shutdown := 0 } ∧
    decodePacketHeader
      (PacketHeader.bytes { size := 4096, timestamp_ns := 777, is_idr := 1 }) =
      some { size := 4096, timestamp_ns := 777, is_idr := 1 } := by
  have h := shared_region_layout
    { width := 1920, height := 1080, timestamp_ns := 123456789, insert_idr := 1,
      pixel_format := 2, row_pitch := 7680, data_size := 8294400, shutdown := 0 }
    { size := 4096, timestamp_ns := 777, is_idr := 1 }
    shared0
    (by refine ⟨?_, ?_, ?_, ?_, ?_, ?_, ?_, ?_⟩ <;> decide)
    (by refine ⟨?_, ?_, ?_⟩ <;> decide)
  refine ⟨by refine ⟨?_, ?_, ?_, ?_, ?_, ?_, ?_, ?_⟩ <;> decide, h.2.1, h.2.2.2.1⟩

/-! ### C10 -/

/-- The claimed handle invariant: a connected client holds the mapped view,
the mapping handle and all three event handles. -/
def ClientInv (c : EncoderIpcClient) : Prop :=
  c.m_connected = true →
    c.m_sharedPtr = true ∧ c.m_sharedMemory = true ∧ c.m_frameReadyEvent = true ∧
      c.m_packetReadyEvent = true ∧ c.m_encoderReadyEvent = true

/-- Whether every `Initialize` in the sequence is invoked on a disconnected
client (checked along the run). -/
def disciplined (w : World) : List Op → Bool
  | [] => true
  | op :: ops => (!(op.isInit && w.client.m_connected)) && disciplined (step w op) ops

/-- Counterexample to C10 as stated: calling `Initialize` again on an already
connected client, with the shared region gone and the worker executable
missing, fails on the attach-and-launch path without clearing `m_connected`,
but has already overwritten `m_sharedMemory` with the null result of
`OpenFileMappingW` — a reachable state where `IsConnected()` is `true` and
the shared-memory handle is null. -/
theorem connected_with_null_handle_reachable :
    (run { client := EncoderIpcClient.fresh, shared := shared0 }
        [Op.initOp 640 480 "h264" oAllOk,
         Op.initOp 640 480 "h264"
           { oAllOk with attachOk := false, workerExeExists := false }]).client.IsConnected
      = true ∧
    (run { client := EncoderIpcClient.fresh, shared := shared0 }
        [Op.initOp 640 480 "h264" oAllOk,
         Op.initOp 640 480 "h264"
           { oAllOk with attachOk := false, workerExeExists := false }]).client.m_sharedMemory
      = false := by
  constructor
  · rfl
  · rfl

/-- Helper fact: `InitializeAfterRegion` establishes the handle invariant when started
from a disconnected client that holds the region handle. -/
theorem InitializeAfterRegion_inv (c : EncoderIpcClient) (shared : SharedMemoryLayout)
    (o : InitOracle) (eff : InitEffects)
    (hmem : c.m_sharedMemory = true) (hc : c.m_connected = false) :
    ClientInv (InitializeAfterRegion c shared o eff).client := by
  intro hconn
  by_cases hmap : o.mapOk = true
  · by_cases hf : o.frameEventOk = true
    · by_cases hp : o.packetEventOk = true
      · by_cases he : o.encoderEventOk = true
        · by_cases hws : o.workerReadySignaled = true
          · simp [InitializeAfterRegion, hmap, hf, hp, he, WaitForEncoderReady, hws, hmem]
          · exfalso
            simp only [Bool.not_eq_true] at hws
            simp [InitializeAfterRegion, hmap, hf, hp, he, WaitForEncoderReady, hws,
              Shutdown] at hconn
        · exfalso
          simp only [Bool.not_eq_true] at he
          simp [InitializeAfterRegion, hmap, hf, hp, he, Shutdown] at hconn
      · exfalso
        simp only [Bool.not_eq_true] at hp
        simp [InitializeAfterRegion, hmap, hf, hp, Shutdown] at hconn
    · exfalso
      simp only [Bool.not_eq_true] at hf
      simp [InitializeAfterRegion, hmap, hf, Shutdown] at hconn
  · exfalso
    simp only [Bool.not_eq_true] at hmap
    simp [InitializeAfterRegion, hmap, hc] at hconn

/-- Helper fact: `Initialize` invoked on a disconnected client leaves the handle
invariant true: on success all handles are held, on failure the connected
flag is still clear. -/
theorem Initialize_inv_of_disconnected (c0 : EncoderIpcClient) (shared : SharedMemoryLayout)
    (width height : Nat) (codec : String) (o : InitOracle)
    (hc : c0.m_connected = false) :
    ClientInv (Initialize c0 shared width height codec o).client := by
  by_cases ha : o.attachOk = true
  · have h := InitializeAfterRegion_inv
      { c0 with
        m_width := width
        m_height := height
        m_codec := codec
        m_sharedMemory := o.attachOk }
      shared o
      { launched := false, launchArgs := none, pollAttempts := 0, pollIntervalMs := 100 }
      (by simpa using ha) hc
    simpa [Initialize, ha] using h
  · simp only [Bool.not_eq_true] at ha
    by_cases hexe : o.workerExeExists = true
    · by_cases hcp : o.createProcessOk = true
      · rcases hra : o.regionAppearsAt with _ | k
        · intro hconn
          simp_all [Initialize, ha, LaunchEncoderProcess, hexe, hcp, pollForRegion, hra]
        · by_cases hk : k < 50
          · have h := InitializeAfterRegion_inv
              { c0 with
                m_width := width
                m_height := height
                m_codec := codec
                m_sharedMemory := true
                m_encoderProcess := true }
              shared o
              { launched := true, launchArgs := some (width, height, codec),
                pollAttempts := k + 1, pollIntervalMs := 100 }
              rfl hc
            simpa [Initialize, ha, LaunchEncoderProcess, hexe, hcp, pollForRegion, hra, hk]
              using h
          · intro hconn
            exfalso
            simp [Initialize, ha, LaunchEncoderProcess, hexe, hcp, pollForRegion,
              hra, hk, hc] at hconn
      · simp only [Bool.not_eq_true] at hcp
        intro hconn
        simp_all [Initialize, ha, LaunchEncoderProcess, hexe, hcp]
    · simp only [Bool.not_eq_true] at hexe
      intro hconn
      simp_all [Initialize, ha, LaunchEncoderProcess, hexe]

/-- C10 amended: the handle invariant — `IsConnected()` implies the mapped
view, the mapping handle and all three event handles are held — is preserved
by every operation sequence in which `Initialize` is only invoked on a
disconnected client; and independently of any invariant, `SendFrame` and
`ReceivePacket` never touch the shared region when the view pointer is null
(their null guard fails first). -/
theorem handle_invariant_disciplined_and_null_guard
    (w : World) (ops : List Op)
    (hinv : ClientInv w.client) (hd : disciplined w ops = true) :
    ClientInv (run w ops).client ∧
    (∀ (c : EncoderIpcClient) (s : SharedMemoryLayout) (inp : SendFrameInput) (ok : Bool),
      c.m_sharedPtr = false →
      SendFrame c s inp ok =
        { ok := false, shared := s, attemptedRaise := false, raisedFrameReady := false }) ∧
    (∀ (c : EncoderIpcClient) (s : SharedMemoryLayout) (pd : List Nat) (ts : Nat)
        (idr : Bool) (f : Bool),
      c.m_sharedPtr = false →
      ReceivePacket c s pd ts idr f = (false, pd, ts, idr)) := by
  refine ⟨?_, ?_, ?_⟩
  · induction ops generalizing w with
    | nil => exact hinv
    | cons op rest ih =>
      simp only [disciplined, Bool.and_eq_true, Bool.not_eq_true', Bool.and_eq_false_iff]
        at hd
      refine ih (step w op) ?_ hd.2
      cases op with
      | initOp width height codec o =>
        rcases hd.1 with h | h
        · simp [Op.isInit] at h
        · exact Initialize_inv_of_disconnected w.client w.shared width height codec o h
      | sendOp inp setEventOk => exact hinv
      | recvOp pd ts idr f => exact hinv
      | shutdownOp d =>
        intro hconn
        simp [step, Shutdown] at hconn
  · intro c s inp ok hnull
    simp [SendFrame, hnull]
  · intro c s pd ts idr f hnull
    simp [ReceivePacket, hnull]

/-- Witness for C10's amended invariant: a disciplined two-operation run
(first-time `Initialize`, then a frame send) ends connected with the mapping
handle held. -/
theorem handle_invariant_disciplined_and_null_guard_witness :
    (run { client := EncoderIpcClient.fresh, shared := shared0 }
        [Op.initOp 640 480 "h264" oAllOk, Op.sendOp inpSmall true]).client.m_sharedMemory
      = true := by
  have h := (handle_invariant_disciplined_and_null_guard
    { client := EncoderIpcClient.fresh, shared := shared0 }
    [Op.initOp 640 480 "h264" oAllOk, Op.sendOp inpSmall true]
    (by intro hconn; simp [EncoderIpcClient.fresh] at hconn)
    (by rfl)).1
  exact (h rfl).2.1

end Arm64EncoderIpc
